import Mathlib

/-!
Verification of the promptflow tool-resolution engine against its
natural-language specification.

The repository sources available here are the Tool Resolver unit tests
(`tests/executor/unittests/executor/test_tool_resolver.py`) and the AzureML
serving extension (`promptflow/_sdk/_serving/extension/azureml_extension.py`).
The Tool Resolver / Assistant Tool Invoker implementation itself
(`promptflow/executor/_tool_resolver.py` and the assistant tool invoker) is
not part of the source tree; those operations are modelled from the spec
(§4.1–§4.3, §7) with behaviour pinned by the in-tree unit tests, and each
such definition is marked `Modelled from the spec:` in its doc comment.
-/

set_option autoImplicit false

/-! ## String containment (used to state "message contains ..." properties) -/

/-- `startsWithChars pat l` is true when `pat` is an initial segment of `l`. -/
def startsWithChars : List Char → List Char → Bool
  | [], _ => true
  | _ :: _, [] => false
  | p :: ps, c :: cs => p == c && startsWithChars ps cs

/-- `hasSubChars pat l` is true when `pat` occurs contiguously inside `l`. -/
def hasSubChars : List Char → List Char → Bool
  | pat, [] => pat.isEmpty
  | pat, c :: cs => startsWithChars pat (c :: cs) || hasSubChars pat cs

/-- `strContains s pat` is true when `pat` occurs as a substring of `s`. -/
def strContains (s pat : String) : Bool :=
  hasSubChars pat.data s.data

theorem startsWithChars_self_append (pat t : List Char) :
    startsWithChars pat (pat ++ t) = true := by
  induction pat with
  | nil => rfl
  | cons p ps ih => simp [startsWithChars, ih]

theorem hasSubChars_parts (pre pat post : List Char) :
    hasSubChars pat (pre ++ pat ++ post) = true := by
  induction pre with
  | nil =>
    cases h : pat ++ post with
    | nil =>
      rcases List.append_eq_nil.mp h with ⟨h1, h2⟩
      subst h1; subst h2
      rfl
    | cons c cs =>
      simp only [List.nil_append]
      rw [h, hasSubChars, ← h, startsWithChars_self_append]
      simp
  | cons a pre' ih =>
    simp only [List.cons_append]
    rw [hasSubChars, ih]
    simp

/-- If the character data of `s` splits as `pre ++ pat ++ post`, then `s`
contains the string `pat`. -/
theorem strContains_of_data_eq (s pat : String) (pre post : List Char)
    (h : s.data = pre ++ pat.data ++ post) : strContains s pat = true := by
  unfold strContains
  rw [h]
  exact hasSubChars_parts pre pat.data post

/-! ## Association lists (Python `dict` lookups, first match wins) -/

/-- First-match lookup in an association list keyed by strings. -/
def findEntry {α : Type} (k : String) : List (String × α) → Option α
  | [] => none
  | (k', v) :: rest => if k' = k then some v else findEntry k rest

/-! ## Data model (from `promptflow.contracts`, as used by the unit tests) -/

/-- `ToolType` tag of a node.  The source dispatches on the four known values;
`unknown` stands for any other runtime value (the unit tests use a mock). -/
inductive ToolTypeTag
  | python
  | prompt
  | llm
  | customLlm
  | unknown (s : String)
deriving DecidableEq

/-- Display name used in error messages. -/
def ToolTypeTag.str : ToolTypeTag → String
  | .python => "python"
  | .prompt => "prompt"
  | .llm => "llm"
  | .customLlm => "custom_llm"
  | .unknown s => s

/-- `ToolSourceType` tag of a node source; `unknown` stands for any other
runtime value (the unit tests use `None`). -/
inductive SourceTypeTag
  | package
  | code
  | packageWithPrompt
  | unknown (s : String)
deriving DecidableEq

/-- Display name used in error messages. -/
def SourceTypeTag.str : SourceTypeTag → String
  | .package => "package"
  | .code => "code"
  | .packageWithPrompt => "package_with_prompt"
  | .unknown s => s

/-- `ToolSource`: source type plus optional path. -/
structure ToolSource where
  type : SourceTypeTag
  path : Option String
deriving DecidableEq

/-- `InputValueType`: only `literal` is handled by type coercion. -/
inductive InputValueType
  | literal
  | flowInput
  | nodeReference
deriving DecidableEq

/-- A stored connection record in the injected connection table:
a type tag and a field mapping. -/
structure ConnRec where
  type : String
  value : List (String × String)
deriving DecidableEq

/-- A materialized (typed) connection object, as produced by connection
resolution: the Python class name and the stored fields. -/
structure ConnObj where
  typeName : String
  fields : List (String × String)
deriving DecidableEq

/-- Runtime values flowing through input binding. -/
inductive Value
  | str (s : String)
  | int (n : Int)
  | bool (b : Bool)
  | list (xs : List Value)
  | connection (c : ConnObj)

/-- `InputAssignment`: a value plus its value type. -/
structure InputAssignment where
  value : Value
  value_type : InputValueType

/-- A tool input definition: the ordered list of acceptable type names. -/
structure InputDefinition where
  type : List String

/-- A tool's declared schema. -/
structure Tool where
  name : String
  type : String
  inputs : List (String × InputDefinition)

/-- A workflow node. -/
structure Node where
  name : String
  type : ToolTypeTag
  source : Option ToolSource
  inputs : List (String × InputAssignment)
  connection : Option String
  provider : Option String

/-! ## Error taxonomy (spec §7 and the exception classes used by the tests) -/

/-- Error kinds of the resolution engine, following the spec's taxonomy (§7)
and the exception classes imported by the unit tests. -/
inductive ErrorKind
  | invalidSource
  | unsupportedToolType
  | unsupportedSourceType
  | duplicateInput
  | templateSyntaxError
  | connectionNotFound
  | invalidConnectionType
  | valueTypeMismatch
  | valueTypeUnresolved
  | invalidAssistantDefinitionPath
  | userError
deriving DecidableEq

/-- The Python exception class corresponding to each error kind, as asserted
by the unit tests (`NotImplementedError` for dispatch misses,
`TemplateSyntaxError` for malformed templates, and so on). -/
def ErrorKind.pyClass : ErrorKind → String
  | .invalidSource => "InvalidSource"
  | .unsupportedToolType => "NotImplementedError"
  | .unsupportedSourceType => "NotImplementedError"
  | .duplicateInput => "NodeInputValidationError"
  | .templateSyntaxError => "TemplateSyntaxError"
  | .connectionNotFound => "ConnectionNotFound"
  | .invalidConnectionType => "InvalidConnectionType"
  | .valueTypeMismatch => "NodeInputValidationError"
  | .valueTypeUnresolved => "ValueTypeUnresolved"
  | .invalidAssistantDefinitionPath => "NodeInputValidationError"
  | .userError => "UserErrorException"

/-- An error raised inside single-node resolution, before wrapping. -/
structure ExecErr where
  kind : ErrorKind
  message : String
deriving DecidableEq

/-- `ResolveToolError`: the single wrapping error raised at the Tool Resolver
boundary.  It carries the node name, a composed human-readable message and
the original inner error. -/
structure ResolveToolError where
  nodeName : String
  message : String
  inner : ExecErr
deriving DecidableEq

/-! ## Template Engine

Modelled from the spec: the Template Engine (spec §2) "renders a text template
against named inputs, extracts the set of variable names referenced"; prompt
resolution "parse[s] the template to confirm syntactic validity" (§4.1).  The
concrete parser (Jinja) is an external library; this model implements the
fragment exercised by the repository: `{{ name }}` placeholders whose body
must be a single token, with the error message shape pinned by the unit test
`test_resolve_tool_by_node_with_invalid_template`. -/

/-- Split a character list into maximal space-separated tokens
(the accumulator holds the current token reversed). -/
def spaceTokens : List Char → List Char → List String
  | [], cur => if cur.isEmpty then [] else [String.mk cur.reverse]
  | ' ' :: rest, cur =>
    if cur.isEmpty then spaceTokens rest []
    else String.mk cur.reverse :: spaceTokens rest []
  | c :: rest, cur => spaceTokens rest (c :: cur)

/-- A template parse failure: the line of the offending construct and the
parser's message. -/
structure TemplateErr where
  line : Nat
  msg : String
deriving DecidableEq

/-- Scanner mode: plain text, or inside a `{{ ... }}` print block
(recording the line the block started on and the reversed body). -/
inductive ScanMode
  | text
  | inVar (startLine : Nat) (content : List Char)

/-- Template scanner: walks the character stream, collecting the variable
name of each `{{ ... }}` block in order; a block body with more than one
token is a syntax error at the block's line. -/
def scanTemplateAux : List Char → ScanMode → Nat → Except TemplateErr (List String)
  | [], .text, _ => .ok []
  | [], .inVar sl _, _ =>
    .error ⟨sl, "unexpected end of template, expected 'end of print statement'"⟩
  | '{' :: '{' :: rest, .text, line => scanTemplateAux rest (.inVar line []) line
  | '}' :: '}' :: rest, .inVar sl content, line =>
    match spaceTokens content.reverse [] with
    | [] => .error ⟨sl, "expected token 'name', got 'end of print statement'"⟩
    | [t] => (scanTemplateAux rest .text line).map (fun vs => t :: vs)
    | _ :: t2 :: _ =>
      .error ⟨sl, "expected token 'end of print statement', got '" ++ (t2 ++ "'")⟩
  | c :: rest, .text, line =>
    scanTemplateAux rest .text (if c = '\n' then line + 1 else line)
  | c :: rest, .inVar sl content, line =>
    scanTemplateAux rest (.inVar sl (c :: content)) (if c = '\n' then line + 1 else line)

/-- Parse a template: the ordered list of referenced variable names, or a
syntax error.  Line numbering starts at 1, as in the Jinja messages quoted
by the unit tests. -/
def parseTemplate (s : String) : Except TemplateErr (List String) :=
  scanTemplateAux s.data .text 1

/-- Modelled from the spec: prompt/LLM resolution "binds only the inputs
whose names appear in the template" (§4.1). -/
def filterInputsByTemplate (vars : List String)
    (inputs : List (String × InputAssignment)) : List (String × InputAssignment) :=
  inputs.filter (fun kv => vars.contains kv.1)

/-! ## Tool Resolver boundary error wrapping -/

/-- Modelled from the spec: the message a `TemplateSyntaxError` contributes to
the composed `ResolveToolError` message — it is "annotated with the node name
and error location" (§4.1); the exact shape
`Jinja parsing failed at line N: (TemplateSyntaxError) ...` is pinned by
`test_resolve_tool_by_node_with_invalid_template`. -/
def jinjaErrMessage (line : Nat) (msg : String) : String :=
  "Jinja parsing failed " ++ (("at line " ++ toString line) ++ (": (TemplateSyntaxError) " ++ msg))

/-- Modelled from the spec: "every error raised while resolving a single node
is caught at the Tool Resolver boundary and re-raised as a single wrapping
error carrying the node name and a human-readable composed message, with the
original error retained as an inspectable cause" (§7).  The composed message
shape `Tool load failed in '<node>': ...` is pinned by the unit tests. -/
def wrapResolveError (nodeName : String) (e : ExecErr) : ResolveToolError :=
  { nodeName := nodeName
    message := "Tool load failed in '" ++ (nodeName ++ ("': " ++ e.message))
    inner := e }

/-- Modelled from the spec: resolve-prompt-node (§4.1) — load the template
text (passed here explicitly: the source loader is an external collaborator,
mocked in the unit tests), parse it, and bind only the inputs whose names
appear in the template; a malformed template fails with a template-syntax
error wrapped at the resolver boundary. -/
def _resolve_prompt_node (nodeName : String) (templateContent : String)
    (inputs : List (String × InputAssignment)) :
    Except ResolveToolError (List (String × InputAssignment)) :=
  match parseTemplate templateContent with
  | .error e =>
    .error (wrapResolveError nodeName ⟨.templateSyntaxError, jinjaErrMessage e.line e.msg⟩)
  | .ok vars => .ok (filterInputsByTemplate vars inputs)

/-! ## Tool Resolver dispatch (spec §4.1) -/

/-- The resolution strategy selected by dispatch. -/
inductive Strategy
  | resolvePackageNode
  | resolveScriptNode
  | resolvePromptNode
  | resolveLlmNode
  | resolvePackageNodeThenIntegratePrompt
deriving DecidableEq

/-- Modelled from the spec: the dispatch state machine of
`resolve_tool_by_node`, "keyed first by `node.type`, then (for
Python/CustomLLM) by `node.source.type`" (§4.1), with the error messages
pinned by `test_resolve_tool_by_node_with_invalid_type` /
`..._invalid_source_type` / `..._no_source`. -/
def dispatchNode (node : Node) : Except ExecErr Strategy :=
  match node.source with
  | none => .error ⟨.userError, "Node " ++ (node.name ++ " does not have source defined.")⟩
  | some src =>
    match node.type with
    | .python =>
      match src.type with
      | .package => .ok .resolvePackageNode
      | .code => .ok .resolveScriptNode
      | st =>
        .error ⟨.unsupportedSourceType,
          "Tool source type " ++ (st.str ++ " for python tool is not supported yet.")⟩
    | .prompt => .ok .resolvePromptNode
    | .llm => .ok .resolveLlmNode
    | .customLlm =>
      match src.type with
      | .packageWithPrompt => .ok .resolvePackageNodeThenIntegratePrompt
      | st =>
        .error ⟨.unsupportedSourceType,
          "Tool source type " ++ (st.str ++ " for custom_llm tool is not supported yet.")⟩
    | t => .error ⟨.unsupportedToolType, "Tool type " ++ (t.str ++ " is not supported yet.")⟩

/-- Modelled from the spec: `resolve_tool_by_node` selects a strategy per the
dispatch table and wraps every internal failure in a single
`ResolveToolError` at the resolver boundary (§4.1, §7). -/
def resolve_tool_by_node (node : Node) : Except ResolveToolError Strategy :=
  match dispatchNode node with
  | .ok s => .ok s
  | .error e => .error (wrapResolveError node.name e)

/-! ## Connection Resolver and Type Coercion (spec §4.2) -/

/-- Modelled from the spec: the "explicit registry mapping connection-type
name → constructor" (§9) standing for the engine's known connection classes;
it holds the connection class names exercised by the unit tests. -/
def connectionRegistry : List String :=
  ["AzureOpenAIConnection", "OpenAIConnection", "CustomConnection",
   "CustomStrongTypeConnection", "SerpConnection"]

/-- A type name counts as a connection type when it is in the registry. -/
def isConnectionClassName (s : String) : Bool :=
  connectionRegistry.contains s

/-- The names of the primitive `ValueType` enum members recognized by the
coercion matrix (spec §4.2); a declared type name outside this matrix (and
not a connection class) is unresolvable. -/
def valueTypeNames : List String :=
  ["int", "double", "bool", "string", "secret", "object", "list", "image",
   "assistant_definition"]

/-- Python-style quoted list display, e.g. `['CustomConnection']`, used in
the invalid-connection-type message pinned by the unit tests. -/
def quotedList (l : List String) : String :=
  "[" ++ (String.intercalate ", " (l.map (fun t => "'" ++ (t ++ "'"))) ++ "]")

/-- Modelled from the spec: connection-typed literal coercion (§4.2) — "the
literal value is treated as a connection *name*; looked up in the connection
table; fails with `ConnectionNotFound` if absent.  Its declared `type` tag
must ... satisfy one of the acceptable connection types, else fails with
`InvalidConnectionType` listing the accepted set.  A successful match
instantiates a typed connection object from the stored value mapping."
Message shapes are pinned by
`test_convert_node_literal_input_types_with_invalid_case`. -/
def _convert_to_connection_value (connections : List (String × ConnRec))
    (nodeName k : String) (connTypes : List String) (v : Value) : Except ExecErr Value :=
  match v with
  | .str connName =>
    match findEntry connName connections with
    | none =>
      .error ⟨.connectionNotFound,
        "Connection " ++ (connName ++ (" not found for node '" ++ (nodeName ++ ("' input '" ++ (k ++ "'.")))))⟩
    | some stored =>
      if connTypes.contains stored.type then
        .ok (.connection ⟨stored.type, stored.value⟩)
      else
        .error ⟨.invalidConnectionType,
          "Input '" ++ (k ++ ("' for node '" ++ (nodeName ++ ("' of type " ++
            ("'" ++ (stored.type ++ ("' is not supported, valid types " ++ (quotedList connTypes ++ "."))))))))⟩
  | _ =>
    .error ⟨.valueTypeMismatch,
      "Input '" ++ (k ++ ("' for node '" ++ (nodeName ++ "' is not a connection name.")))⟩

/-- Parse an `int`-typed literal: an integer passes through, a string must
parse as an integer, anything else is a mismatch.  The message shape
`value '...' is not type int` is pinned by the unit tests. -/
def parseIntValue (nodeName k : String) (v : Value) : Except ExecErr Value :=
  match v with
  | .int n => .ok (.int n)
  | .str s =>
    match s.toInt? with
    | some n => .ok (.int n)
    | none =>
      .error ⟨.valueTypeMismatch,
        "Input '" ++ (k ++ ("' for node '" ++ (nodeName ++ ("' of value '" ++ (s ++ "' is not type int.")))))⟩
  | _ =>
    .error ⟨.valueTypeMismatch,
      "Input '" ++ (k ++ ("' for node '" ++ (nodeName ++ "' is not type int.")))⟩

/-- Modelled from the spec: the single-input coercion matrix (§4.2) — the
first declared acceptable type drives the conversion: connection class names
go through connection resolution; recognized primitive `ValueType` names are
parsed (only the branches a claim touches are refined: `int` parsing;
the remaining recognized primitive names pass the literal through, standing
for their structural parses whose internals no claim constrains); a declared
type name unknown to the matrix "fails with a dedicated \"type unresolved\"
error rather than silently passing the value through" (§4.2). -/
def coerceLiteralValue (connections : List (String × ConnRec))
    (nodeName k : String) (declTypes : List String) (v : Value) : Except ExecErr Value :=
  match declTypes with
  | [] => .ok v
  | t0 :: _ =>
    if isConnectionClassName t0 then
      _convert_to_connection_value connections nodeName k declTypes v
    else if t0 = "int" then
      parseIntValue nodeName k v
    else if valueTypeNames.contains t0 then
      .ok v
    else
      .error ⟨.valueTypeUnresolved,
        "Unresolved input type " ++ ("'" ++ (t0 ++ ("', input id is " ++ (nodeName ++ ("." ++ (k ++ "."))))))⟩

/-- Modelled from the spec: `_convert_node_literal_input_types` (§4.2) —
"replace each Literal `InputAssignment.value` with a value matching one of
the input's declared acceptable types"; non-literal assignments and inputs
absent from the tool schema pass through unresolved. -/
def _convert_node_literal_input_types (connections : List (String × ConnRec))
    (nodeName : String) (toolInputs : List (String × InputDefinition)) :
    List (String × InputAssignment) → Except ExecErr (List (String × InputAssignment))
  | [] => .ok []
  | (k, a) :: rest =>
    if a.value_type = .literal then
      match findEntry k toolInputs with
      | none =>
        (_convert_node_literal_input_types connections nodeName toolInputs rest).map
          (fun rest' => (k, a) :: rest')
      | some idef =>
        match coerceLiteralValue connections nodeName k idef.type a.value with
        | .error e => .error e
        | .ok v' =>
          (_convert_node_literal_input_types connections nodeName toolInputs rest).map
            (fun rest' => (k, ⟨v', a.value_type⟩) :: rest')
    else
      (_convert_node_literal_input_types connections nodeName toolInputs rest).map
        (fun rest' => (k, a) :: rest')

/-- Modelled from the spec: conversion of a stored custom connection to a
user-defined strong-typed connection class
(`_convert_to_custom_strong_type_connection_value`, §4.2/§9).  The stored
value is looked up by name (absence fails with `ConnectionNotFound`) and the
result is an instance of the class named by the head of the acceptable-type
list, carrying the stored field mapping — the behaviour pinned by
`test_convert_to_custom_strong_type_connection_value`. -/
def _convert_to_custom_strong_type_connection_value
    (connections : List (String × ConnRec)) (nodeName k : String)
    (v : Value) (connTypes : List String) : Except ExecErr ConnObj :=
  match connTypes with
  | [] =>
    .error ⟨.valueTypeMismatch,
      "Input '" ++ (k ++ ("' for node '" ++ (nodeName ++ "' has invalid types: [].")))⟩
  | t0 :: _ =>
    match v with
    | .str connName =>
      match findEntry connName connections with
      | none =>
        .error ⟨.connectionNotFound,
          "Connection " ++ (connName ++ (" not found for node '" ++ (nodeName ++ ("' input '" ++ (k ++ "'.")))))⟩
      | some stored => .ok ⟨t0, stored.value⟩
    | _ =>
      .error ⟨.valueTypeMismatch,
        "Input '" ++ (k ++ ("' for node '" ++ (nodeName ++ "' is not a connection name.")))⟩

/-- The required fields of each user-defined strong-typed connection class
declared by the unit tests (`MyFirstCSTConnection` declares `api_key` and
`api_base`). -/
def customTypeRequiredFields : String → List String
  | "MyFirstCSTConnection" => ["api_key", "api_base"]
  | _ => []

/-! ## LLM node-level connection binding (spec §4.2, last bullet) -/

/-- Modelled from the spec: `_get_node_connection` — the node-level
`connection` reference is looked up in the connection table and materialized;
"absence of the referenced connection ... fail[s]" with `ConnectionNotFound`
(§4.2).  A node with no `connection` behaves like an absent name (pinned by
`test_resolve_llm_connection_to_inputs`, case 1). -/
def _get_node_connection (connections : List (String × ConnRec)) (node : Node) :
    Except ExecErr ConnObj :=
  match node.connection with
  | none =>
    .error ⟨.connectionNotFound,
      "Connection of node '" ++ (node.name ++ "' is not found.")⟩
  | some cname =>
    match findEntry cname connections with
    | none =>
      .error ⟨.connectionNotFound,
        "Connection '" ++ (cname ++ "' is not found.")⟩
    | some stored => .ok ⟨stored.type, stored.value⟩

/-- Whether a tool input declares a connection-compatible type (its first
declared type name is a connection class). -/
def isConnCapable (idef : InputDefinition) : Bool :=
  match idef.type with
  | [] => false
  | t0 :: _ => isConnectionClassName t0

/-- Walk the tool inputs in declared order looking for the first
connection-capable input; check the materialized connection's type against
that input's acceptable list. -/
def findConnInput (nodeName : String) (nodeConnection : Option String)
    (toolName : String) (conn : ConnObj) :
    List (String × InputDefinition) → Except ExecErr (String × ConnObj)
  | [] =>
    .error ⟨.invalidConnectionType,
      "Connection type can not be resolved for tool '" ++ (toolName ++ "'.")⟩
  | (key, idef) :: rest =>
    if isConnCapable idef then
      if idef.type.contains conn.typeName then .ok (key, conn)
      else
        .error ⟨.invalidConnectionType,
          "Invalid connection '" ++ ((nodeConnection.getD "") ++ ("' type '" ++ (conn.typeName ++
            ("' for node '" ++ (nodeName ++ ("', valid types " ++ (quotedList idef.type ++ ".")))))))⟩
    else findConnInput nodeName nodeConnection toolName conn rest

/-- Modelled from the spec: `_resolve_llm_connection_to_inputs` — "resolves a
node-level `connection` reference ... into a synthesized keyword input whose
name is the first input key in the tool schema declaring a
connection-compatible type; absence of the referenced connection, or absence
of any declared input capable of accepting a connection, both fail
(`ConnectionNotFound` / `InvalidConnectionType` respectively)" (§4.2). -/
def _resolve_llm_connection_to_inputs (connections : List (String × ConnRec))
    (node : Node) (tool : Tool) : Except ExecErr (String × ConnObj) :=
  match _get_node_connection connections node with
  | .error e => .error e
  | .ok conn => findConnInput node.name node.connection tool.name conn tool.inputs

/-! ## Assistant Tool Invoker (spec §4.3) -/

/-- JSON-like values: the shape of OpenAI tool descriptors and of assistant
tool arguments/results. -/
inductive JVal
  | str (s : String)
  | num (n : Int)
  | obj (kvs : List (String × JVal))
  | arr (xs : List JVal)

/-- One declared parameter of a loaded assistant function tool: its name and
the description/type pair exported to the provider-facing schema. -/
structure FuncParam where
  name : String
  jsonType : String
  description : String

/-- A function tool as loaded by the external script/package tool loader:
name, natural-language description, ordered parameter schema, required
parameter names, and the backing callable. -/
structure LoadedFunc where
  name : String
  description : String
  params : List FuncParam
  required : List String
  fn : List (String × JVal) → JVal

/-- A raw assistant tool-definition record (spec §4.3): a built-in marker
tool, or a function tool (already resolved to its callable by the Tool
Resolver, an external collaborator here) with optional predefined inputs. -/
inductive AssistantToolDef
  | builtin (typeTag : String)
  | function (loaded : LoadedFunc) (predefined : List (String × JVal))

/-- `AssistantTool`: name, provider-facing descriptor, optional callable and
the predefined-input bindings baked in at catalog-build time. -/
structure AssistantTool where
  name : String
  openai_definition : JVal
  func : Option (List (String × JVal) → JVal)
  predefined : List (String × JVal)

/-- The parameter-schema properties of a function tool with the
predefined-input names removed, declaration order preserved. -/
def filteredProps (params : List FuncParam) (predefNames : List String) :
    List (String × JVal) :=
  (params.filter (fun p => !(predefNames.contains p.name))).map
    (fun p => (p.name, .obj [("description", .str p.description), ("type", .str p.jsonType)]))

/-- The required-parameter list with the predefined-input names removed,
declaration order preserved. -/
def filteredRequired (required : List String) (predefNames : List String) : List String :=
  required.filter (fun n => !(predefNames.contains n))

/-- Modelled from the spec: the provider-facing descriptor of one assistant
tool — "built-ins with only a `type` tag, function tools with full
OpenAI-tool-call shaped descriptors" whose "parameter schema [has]
predefined-input names removed from both `properties` and `required`"
(§4.3); the concrete shape is pinned by `test_load_tools`. -/
def toolDescriptor : AssistantToolDef → JVal
  | .builtin t => .obj [("type", .str t)]
  | .function lf predefined =>
    .obj [("type", .str "function"),
          ("function", .obj
            [("name", .str lf.name),
             ("description", .str lf.description),
             ("parameters", .obj
               [("type", .str "object"),
                ("properties", .obj (filteredProps lf.params (predefined.map (·.1)))),
                ("required", .arr ((filteredRequired lf.required (predefined.map (·.1))).map .str))])])]

/-- Modelled from the spec: catalog build (§4.3) — each record becomes one
`AssistantTool` keyed by the tool name (the type tag for built-ins, the
declared name for function tools), in declaration order. -/
def AssistantToolInvoker.load_tools (defs : List AssistantToolDef) : List AssistantTool :=
  defs.map (fun d =>
    match d with
    | .builtin t => ⟨t, toolDescriptor d, none, []⟩
    | .function lf predefined => ⟨lf.name, toolDescriptor d, some lf.fn, predefined⟩)

/-- Modelled from the spec: descriptor export (§4.3) — "the ordered sequence
of provider-facing tool descriptors matching the original declaration
order". -/
def AssistantToolInvoker.to_openai_tools (tools : List AssistantTool) : List JVal :=
  tools.map (fun t => t.openai_definition)

/-- First catalog entry with the given tool name. -/
def findTool (name : String) : List AssistantTool → Option AssistantTool
  | [] => none
  | t :: rest => if t.name = name then some t else findTool name rest

/-- Modelled from the spec: `invoke_tool` (§4.3) — "merges predefined inputs
with runtime inputs (predefined inputs are not overridable by the caller) and
invokes the bound callable synchronously; fails with a lookup error if the
name is not cataloged".  The merged argument mapping lists the predefined
bindings first, so first-match lookup gives them precedence. -/
def AssistantToolInvoker.invoke_tool (tools : List AssistantTool)
    (funcName : String) (kwargs : List (String × JVal)) : Except String JVal :=
  match findTool funcName tools with
  | none => .error ("KeyError: '" ++ (funcName ++ "'"))
  | some t =>
    match t.func with
    | none => .error ("Tool '" ++ (funcName ++ "' has no callable."))
    | some f => .ok (f (t.predefined ++ kwargs))

/-! ## AzureML serving extension
(src: `promptflow/_sdk/_serving/extension/azureml_extension.py`) -/

/-- `normalize_connection_name` replaces `" "` with `"_"` in a connection
name (per the call-site comment in `get_override_connections`; the helper
itself lives in `promptflow._sdk._serving.utils`, outside the source tree). -/
def normalize_connection_name (s : String) : String :=
  ⟨s.data.map (fun c => if c = ' ' then '_' else c)⟩

/-- `InvalidConnectionData(connection_name)`: raised when an environment
override parses as JSON but cannot be converted to a connection. -/
structure InvalidConnectionData where
  connectionName : String
deriving DecidableEq

/-- The per-name loop of `AzureMLExtension.get_override_connections`
(azureml_extension.py lines 94–118): normalize the name, consult the
environment, try to parse the override as JSON (`jsonParse` stands for
`json.loads`, returning `none` where it would raise `ValueError`); a
non-JSON value becomes a name override, a JSON value is converted to a
connection record (`convertToConnDict` stands for
`ArmConnectionOperations._convert_to_connection_dict`, `none` where it would
raise) or else the whole call fails with `InvalidConnectionData`. -/
def getOverrideConnectionsAux (env : List (String × String))
    (jsonParse : String → Option JVal)
    (convertToConnDict : String → JVal → Option ConnRec) :
    List String → Except InvalidConnectionData (List (String × ConnRec) × List (String × String))
  | [] => .ok ([], [])
  | name :: rest =>
    match findEntry (normalize_connection_name name) env with
    | none => getOverrideConnectionsAux env jsonParse convertToConnDict rest
    | some overrideConn =>
      match jsonParse overrideConn with
      | none =>
        (getOverrideConnectionsAux env jsonParse convertToConnDict rest).map
          (fun p => (p.1, (name, overrideConn) :: p.2))
      | some connData =>
        match convertToConnDict name connData with
        | none => .error ⟨name⟩
        | some conn =>
          (getOverrideConnectionsAux env jsonParse convertToConnDict rest).map
            (fun p => ((name, conn) :: p.1, p.2))

/-- Python `dict.update`: entries of `upd` replace entries of `base` with the
same key (stated here up to lookup semantics: `upd` wins). -/
def dictUpdate {α : Type} (base upd : List (String × α)) : List (String × α) :=
  base.filter (fun kv => !((upd.map (fun e => e.1)).contains kv.1)) ++ upd

/-- `AzureMLExtension.get_override_connections` (azureml_extension.py lines
90–124): process every connection name referenced by the flow, merge the
data overrides into the extension's stored connections
(`self.connections.update(connections)`) and return the updated table
together with the name overrides. -/
def get_override_connections (env : List (String × String))
    (jsonParse : String → Option JVal)
    (convertToConnDict : String → JVal → Option ConnRec)
    (stored : List (String × ConnRec)) (connectionNames : List String) :
    Except InvalidConnectionData (List (String × ConnRec) × List (String × String)) :=
  match getOverrideConnectionsAux env jsonParse convertToConnDict connectionNames with
  | .error e => .error e
  | .ok (conns, nameOverrides) => .ok (dictUpdate stored conns, nameOverrides)

/-- Exceptions reaching the serving extension's invoker-initialization
failure hook; `userAuthenticationError` stands for (any subclass of)
`UserAuthenticationError`, `otherException` for every other class. -/
inductive ServingExc
  | userAuthenticationError (msg : String)
  | otherException (cls msg : String)
deriving DecidableEq

/-- `AzureMLExtension.raise_ex_on_invoker_initialization_failure`
(azureml_extension.py lines 126–130): `return not isinstance(ex,
UserAuthenticationError)` — allow lazy authentication for
`UserAuthenticationError`. -/
def raise_ex_on_invoker_initialization_failure : ServingExc → Bool
  | .userAuthenticationError _ => false
  | .otherException _ _ => true

/-- The sample assistant function tool of `test_load_tools` /
`test_assistant_tool_invoker.py`: two inputs with documented schema, a
description, and a callable returning the pair of its two inputs. -/
def sample_tool : LoadedFunc :=
  { name := "sample_tool"
    description := "This is a sample tool."
    params := [⟨"input_int", "number", "This is a sample input int."⟩,
               ⟨"input_str", "string", "This is a sample input str."⟩]
    required := ["input_int", "input_str"]
    fn := fun args => .arr [(findEntry "input_int" args).getD (.num 0),
                            (findEntry "input_str" args).getD (.str "")] }

/-- The catalog key of a raw assistant tool-definition record: the type tag
for built-ins, the declared name for function tools. -/
def toolNameOf : AssistantToolDef → String
  | .builtin t => t
  | .function lf _ => lf.name

/-! ## Claim theorems -/

/-- C1: For every node, `resolve_tool_by_node` dispatches first on
`node.type` and then (for Python and CustomLLM) on `node.source.type`,
selecting exactly one strategy per the table: Python×Package →
resolve-package-node, Python×Code → resolve-script-node, Prompt →
resolve-prompt-node, LLM → resolve-llm-node, CustomLLM×PackageWithPrompt →
resolve-package-node followed by integrate-prompt-in-package-node; any
unmapped `node.type` fails with a `NotImplementedError`-class error whose
message contains "Tool type", and any unmapped `source.type` fails with one
whose message contains "Tool source type". -/
theorem C1_resolve_tool_by_node_dispatch :
    (∀ name p i c pr, resolve_tool_by_node ⟨name, .python, some ⟨.package, p⟩, i, c, pr⟩
      = .ok .resolvePackageNode) ∧
    (∀ name p i c pr, resolve_tool_by_node ⟨name, .python, some ⟨.code, p⟩, i, c, pr⟩
      = .ok .resolveScriptNode) ∧
    (∀ name st p i c pr, resolve_tool_by_node ⟨name, .prompt, some ⟨st, p⟩, i, c, pr⟩
      = .ok .resolvePromptNode) ∧
    (∀ name st p i c pr, resolve_tool_by_node ⟨name, .llm, some ⟨st, p⟩, i, c, pr⟩
      = .ok .resolveLlmNode) ∧
    (∀ name p i c pr, resolve_tool_by_node ⟨name, .customLlm, some ⟨.packageWithPrompt, p⟩, i, c, pr⟩
      = .ok .resolvePackageNodeThenIntegratePrompt) ∧
    (∀ name t src i c pr, ∃ e,
      resolve_tool_by_node ⟨name, .unknown t, some src, i, c, pr⟩ = .error e ∧
      e.inner.kind.pyClass = "NotImplementedError" ∧
      strContains e.message "Tool type" = true) ∧
    (∀ name st p i c pr, st ≠ .package → st ≠ .code → ∃ e,
      resolve_tool_by_node ⟨name, .python, some ⟨st, p⟩, i, c, pr⟩ = .error e ∧
      e.inner.kind.pyClass = "NotImplementedError" ∧
      strContains e.message "Tool source type" = true) ∧
    (∀ name st p i c pr, st ≠ .packageWithPrompt → ∃ e,
      resolve_tool_by_node ⟨name, .customLlm, some ⟨st, p⟩, i, c, pr⟩ = .error e ∧
      e.inner.kind.pyClass = "NotImplementedError" ∧
      strContains e.message "Tool source type" = true) := by
  refine ⟨fun name p i c pr => rfl, fun name p i c pr => rfl, fun name st p i c pr => rfl,
    fun name st p i c pr => rfl, fun name p i c pr => rfl, ?_, ?_, ?_⟩
  · intro name t src i c pr
    refine ⟨_, rfl, rfl, ?_⟩
    apply strContains_of_data_eq _ _
      (("Tool load failed in '" : String).data ++ name.data ++ ("': " : String).data)
      ((" " : String).data ++ t.data ++ (" is not supported yet." : String).data)
    simp [wrapResolveError, ToolTypeTag.str, String.data_append, List.append_assoc]
  · intro name st p i c pr h1 h2
    have hmsg : ∀ m : String, strContains
        ("Tool load failed in '" ++ (name ++ ("': " ++ ("Tool source type " ++ m))))
        "Tool source type" = true := by
      intro m
      apply strContains_of_data_eq _ _
        (("Tool load failed in '" : String).data ++ name.data ++ ("': " : String).data)
        ((" " : String).data ++ m.data)
      simp [String.data_append, List.append_assoc]
    cases st with
    | package => exact absurd rfl h1
    | code => exact absurd rfl h2
    | packageWithPrompt => exact ⟨_, rfl, rfl, hmsg _⟩
    | unknown s => exact ⟨_, rfl, rfl, hmsg _⟩
  · intro name st p i c pr h1
    have hmsg : ∀ m : String, strContains
        ("Tool load failed in '" ++ (name ++ ("': " ++ ("Tool source type " ++ m))))
        "Tool source type" = true := by
      intro m
      apply strContains_of_data_eq _ _
        (("Tool load failed in '" : String).data ++ name.data ++ ("': " : String).data)
        ((" " : String).data ++ m.data)
      simp [String.data_append, List.append_assoc]
    cases st with
    | packageWithPrompt => exact absurd rfl h1
    | package => exact ⟨_, rfl, rfl, hmsg _⟩
    | code => exact ⟨_, rfl, rfl, hmsg _⟩
    | unknown s => exact ⟨_, rfl, rfl, hmsg _⟩

/-- Witness for C1: the dispatch theorem applied at the concrete nodes of the
unit tests (a Python node with package source; unmapped source types; an
unmapped tool type). -/
theorem C1_resolve_tool_by_node_dispatch_witness :
    resolve_tool_by_node ⟨"node", .python, some ⟨.package, none⟩, [], none, none⟩
      = .ok .resolvePackageNode ∧
    (∃ e, resolve_tool_by_node ⟨"node", .python, some ⟨.unknown "None", none⟩, [], none, none⟩
      = .error e ∧ e.inner.kind.pyClass = "NotImplementedError" ∧
      strContains e.message "Tool source type" = true) ∧
    (∃ e, resolve_tool_by_node ⟨"node", .customLlm, some ⟨.unknown "None", none⟩, [], none, none⟩
      = .error e ∧ e.inner.kind.pyClass = "NotImplementedError" ∧
      strContains e.message "Tool source type" = true) ∧
    (∃ e, resolve_tool_by_node ⟨"node", .unknown "Mock", some ⟨.unknown "None", none⟩, [], none, none⟩
      = .error e ∧ e.inner.kind.pyClass = "NotImplementedError" ∧
      strContains e.message "Tool type" = true) :=
  ⟨C1_resolve_tool_by_node_dispatch.1 "node" none [] none none,
   C1_resolve_tool_by_node_dispatch.2.2.2.2.2.2.1 "node" (.unknown "None") none [] none none
     (by decide) (by decide),
   C1_resolve_tool_by_node_dispatch.2.2.2.2.2.2.2 "node" (.unknown "None") none [] none none
     (by decide),
   C1_resolve_tool_by_node_dispatch.2.2.2.2.2.1 "node" "Mock" ⟨.unknown "None", none⟩ [] none none⟩

/-- C7: every error raised while `resolve_tool_by_node` resolves a single
node is re-raised at the Tool Resolver boundary as one wrapping
`ResolveToolError` that carries the node name in its composed message and
retains the original error as an inspectable inner cause; and the AzureML
extension's invoker-initialization hook requests a re-raise exactly when the
inner exception is not a `UserAuthenticationError` (lazy-auth deferral). -/
theorem C7_resolve_error_wrapping :
    (∀ node e, resolve_tool_by_node node = .error e →
      e.nodeName = node.name ∧
      strContains e.message node.name = true ∧
      dispatchNode node = .error e.inner) ∧
    (∀ m, raise_ex_on_invoker_initialization_failure (.userAuthenticationError m) = false) ∧
    (∀ cls m, raise_ex_on_invoker_initialization_failure (.otherException cls m) = true) := by
  refine ⟨?_, fun m => rfl, fun cls m => rfl⟩
  intro node e h
  unfold resolve_tool_by_node at h
  cases hd : dispatchNode node with
  | ok s => rw [hd] at h; cases h
  | error err =>
    rw [hd] at h
    cases h
    refine ⟨rfl, ?_, rfl⟩
    apply strContains_of_data_eq _ _ (("Tool load failed in '" : String).data)
      (("': " : String).data ++ err.message.data)
    simp [wrapResolveError, String.data_append, List.append_assoc]

/-- Witness for C7: the wrapping theorem applied at a concrete failing node,
and the lazy-auth hook evaluated at a concrete `UserAuthenticationError` and
at another exception. -/
theorem C7_resolve_error_wrapping_witness :
    (wrapResolveError "node"
      ⟨.unsupportedToolType, "Tool type " ++ ("Mock" ++ " is not supported yet.")⟩).nodeName
        = "node" ∧
    strContains (wrapResolveError "node"
      ⟨.unsupportedToolType, "Tool type " ++ ("Mock" ++ " is not supported yet.")⟩).message
        "node" = true ∧
    dispatchNode ⟨"node", .unknown "Mock", some ⟨.unknown "None", none⟩, [], none, none⟩ =
      .error (wrapResolveError "node"
        ⟨.unsupportedToolType, "Tool type " ++ ("Mock" ++ " is not supported yet.")⟩).inner ∧
    raise_ex_on_invoker_initialization_failure (.userAuthenticationError "auth failed") = false ∧
    raise_ex_on_invoker_initialization_failure (.otherException "RuntimeError" "boom") = true := by
  have h := C7_resolve_error_wrapping.1
    ⟨"node", .unknown "Mock", some ⟨.unknown "None", none⟩, [], none, none⟩
    (wrapResolveError "node"
      ⟨.unsupportedToolType, "Tool type " ++ ("Mock" ++ " is not supported yet.")⟩) rfl
  exact ⟨h.1, h.2.1, h.2.2, C7_resolve_error_wrapping.2.1 "auth failed",
    C7_resolve_error_wrapping.2.2 "RuntimeError" "boom"⟩

/-- The names bound by template filtering are the input names filtered by
template-variable membership. -/
theorem map_fst_filterInputsByTemplate (vars : List String)
    (inputs : List (String × InputAssignment)) :
    (filterInputsByTemplate vars inputs).map Prod.fst
      = (inputs.map Prod.fst).filter (fun k => vars.contains k) := by
  induction inputs with
  | nil => rfl
  | cons kv rest ih =>
    by_cases h : kv.1 ∈ vars
    · simp [filterInputsByTemplate, List.filter_cons, h] at ih ⊢
      exact ih
    · simp [filterInputsByTemplate, List.filter_cons, h] at ih ⊢
      exact ih

/-- C5: Resolving a prompt or LLM node binds exactly the node inputs whose
names appear as template variables: for every node whose inputs are a
superset of the template's variable set, the resolved node's inputs equal
the subset referenced by the template. -/
theorem C5_prompt_binds_only_template_inputs
    (nodeName tpl : String) (vars : List String)
    (inputs : List (String × InputAssignment))
    (hparse : parseTemplate tpl = .ok vars)
    (hsuper : ∀ v ∈ vars, v ∈ inputs.map Prod.fst) :
    _resolve_prompt_node nodeName tpl inputs = .ok (filterInputsByTemplate vars inputs) ∧
    (filterInputsByTemplate vars inputs).map Prod.fst
      = (inputs.map Prod.fst).filter (fun k => vars.contains k) ∧
    (∀ v ∈ vars, v ∈ (filterInputsByTemplate vars inputs).map Prod.fst) ∧
    (∀ k ∈ (filterInputsByTemplate vars inputs).map Prod.fst, k ∈ vars) := by
  refine ⟨?_, map_fst_filterInputsByTemplate vars inputs, ?_, ?_⟩
  · unfold _resolve_prompt_node
    rw [hparse]
  · intro v hv
    rw [map_fst_filterInputsByTemplate]
    rw [List.mem_filter]
    refine ⟨hsuper v hv, ?_⟩
    simp [List.contains]
    exact hv
  · intro k hk
    rw [map_fst_filterInputsByTemplate, List.mem_filter] at hk
    have := hk.2
    simp [List.contains] at this
    exact this

/-- Witness for C5: the template `{{text}}![image]({{image}})` with node
inputs `{conn, text, image}` binds exactly `{text, image}` (the unit test
`test_resolve_llm_node`). -/
theorem C5_prompt_binds_only_template_inputs_witness :
    _resolve_prompt_node "mock" "{{text}}![image]({{image}})"
      [("conn", ⟨.str "conn_name", .literal⟩), ("text", ⟨.str "Hello World!", .literal⟩),
       ("image", ⟨.str "logo.jpg", .literal⟩)]
      = .ok [("text", ⟨.str "Hello World!", .literal⟩), ("image", ⟨.str "logo.jpg", .literal⟩)] :=
  (C5_prompt_binds_only_template_inputs "mock" "{{text}}![image]({{image}})" ["text", "image"]
    [("conn", ⟨.str "conn_name", .literal⟩), ("text", ⟨.str "Hello World!", .literal⟩),
     ("image", ⟨.str "logo.jpg", .literal⟩)] rfl (by decide)).1

/-- C6: Resolving a prompt-typed node whose template is syntactically
malformed fails with a template-syntax error whose message includes both the
node's name and the offending line of the parse failure. -/
theorem C6_malformed_template_error
    (nodeName tpl : String) (inputs : List (String × InputAssignment))
    (te : TemplateErr) (hparse : parseTemplate tpl = .error te) :
    ∃ e, _resolve_prompt_node nodeName tpl inputs = .error e ∧
      e.inner.kind = .templateSyntaxError ∧
      strContains e.message nodeName = true ∧
      strContains e.message ("at line " ++ toString te.line) = true := by
  refine ⟨wrapResolveError nodeName ⟨.templateSyntaxError, jinjaErrMessage te.line te.msg⟩,
    ?_, rfl, ?_, ?_⟩
  · unfold _resolve_prompt_node
    rw [hparse]
  · apply strContains_of_data_eq _ _ (("Tool load failed in '" : String).data)
      ((("': " : String) ++ jinjaErrMessage te.line te.msg).data)
    simp [wrapResolveError, String.data_append, List.append_assoc]
  · apply strContains_of_data_eq _ _
      (("Tool load failed in '" : String).data ++ nodeName.data ++
        (("': " : String).data ++ ("Jinja parsing failed " : String).data))
      ((": (TemplateSyntaxError) " : String).data ++ te.msg.data)
    simp [wrapResolveError, jinjaErrMessage, String.data_append, List.append_assoc]

/-- Witness for C6: the malformed template `{{current context}}` of
`test_resolve_tool_by_node_with_invalid_template` fails at line 1, and the
composed message is exactly the one asserted by that test. -/
theorem C6_malformed_template_error_witness :
    (∃ e, _resolve_prompt_node "node" "{{current context}}" [] = .error e ∧
      e.inner.kind = .templateSyntaxError ∧
      strContains e.message "node" = true ∧
      strContains e.message ("at line " ++ toString (1 : Nat)) = true) ∧
    strContains (wrapResolveError "node" ⟨.templateSyntaxError, jinjaErrMessage 1
        "expected token 'end of print statement', got 'context'"⟩).message
      "Tool load failed in 'node': Jinja parsing failed at line 1: (TemplateSyntaxError) expected token 'end of print statement', got 'context'"
      = true :=
  ⟨C6_malformed_template_error "node" "{{current context}}" []
    ⟨1, "expected token 'end of print statement', got 'context'"⟩ rfl, by rfl⟩

/-- C3: Coercing a Literal input whose declared acceptable types name a
connection type treats the value as a connection name: if the name is absent
from the connection table, conversion fails with `ConnectionNotFound`; if
the name is present but its stored type tag satisfies none of the acceptable
connection types, it fails with `InvalidConnectionType` whose message lists
the accepted set. -/
theorem C3_connection_literal_coercion_errors
    (connections : List (String × ConnRec)) (nodeName k connName t0 : String)
    (rest : List String) (hconn : isConnectionClassName t0 = true) :
    (findEntry connName connections = none →
      ∃ e, _convert_node_literal_input_types connections nodeName [(k, ⟨t0 :: rest⟩)]
          [(k, ⟨.str connName, .literal⟩)] = .error e ∧
        e.kind = .connectionNotFound) ∧
    (∀ stored : ConnRec, findEntry connName connections = some stored →
      (t0 :: rest).contains stored.type = false →
      ∃ e, _convert_node_literal_input_types connections nodeName [(k, ⟨t0 :: rest⟩)]
          [(k, ⟨.str connName, .literal⟩)] = .error e ∧
        e.kind = .invalidConnectionType ∧
        strContains e.message
          ("'" ++ (stored.type ++ ("' is not supported, valid types " ++ quotedList (t0 :: rest))))
          = true) := by
  constructor
  · intro hfind
    refine ⟨⟨.connectionNotFound,
      "Connection " ++ (connName ++ (" not found for node '" ++ (nodeName ++ ("' input '" ++ (k ++ "'.")))))⟩,
      ?_, rfl⟩
    simp [_convert_node_literal_input_types, coerceLiteralValue, _convert_to_connection_value,
      findEntry, hconn, hfind]
  · intro stored hfind hmiss
    refine ⟨⟨.invalidConnectionType,
      "Input '" ++ (k ++ ("' for node '" ++ (nodeName ++ ("' of type " ++
        ("'" ++ (stored.type ++ ("' is not supported, valid types " ++ (quotedList (t0 :: rest) ++ "."))))))))⟩,
      ?_, rfl, ?_⟩
    · simp at hmiss
      simp [_convert_node_literal_input_types, coerceLiteralValue, _convert_to_connection_value,
        findEntry, hconn, hfind, hmiss]
    · apply strContains_of_data_eq _ _
        (("Input '" : String).data ++ k.data ++ ("' for node '" : String).data ++
          nodeName.data ++ ("' of type " : String).data)
        (("." : String).data)
      simp [String.data_append, List.append_assoc]

/-- Witness for C3: the two invalid cases of
`test_convert_node_literal_input_types_with_invalid_case` — an empty table
gives `ConnectionNotFound`; a stored `AzureOpenAIConnection` against accepted
`["CustomConnection"]` gives the invalid-connection-type error whose message
contains `'AzureOpenAIConnection' is not supported, valid types
['CustomConnection']`. -/
theorem C3_connection_literal_coercion_errors_witness :
    (∃ e, _convert_node_literal_input_types [] "mock" [("conn", ⟨["CustomConnection"]⟩)]
        [("conn", ⟨.str "conn_name", .literal⟩)] = .error e ∧
      e.kind = .connectionNotFound) ∧
    (∃ e, _convert_node_literal_input_types
        [("conn_name", ⟨"AzureOpenAIConnection", [("api_key", "mock"), ("api_base", "mock")]⟩)]
        "mock" [("conn", ⟨["CustomConnection"]⟩)]
        [("conn", ⟨.str "conn_name", .literal⟩)] = .error e ∧
      e.kind = .invalidConnectionType ∧
      strContains e.message
        ("'" ++ ("AzureOpenAIConnection" ++ ("' is not supported, valid types " ++ quotedList ["CustomConnection"])))
        = true) :=
  ⟨(C3_connection_literal_coercion_errors [] "mock" "conn" "conn_name" "CustomConnection" []
      rfl).1 rfl,
   (C3_connection_literal_coercion_errors
      [("conn_name", ⟨"AzureOpenAIConnection", [("api_key", "mock"), ("api_base", "mock")]⟩)]
      "mock" "conn" "conn_name" "CustomConnection" [] rfl).2
      ⟨"AzureOpenAIConnection", [("api_key", "mock"), ("api_base", "mock")]⟩ rfl rfl⟩

/-- C9: Coercing a Literal input whose declared acceptable type name is not
recognized by the coercion matrix fails with a dedicated
`ValueTypeUnresolved` error; the value is never silently passed through
unconverted. -/
theorem C9_unresolved_declared_type
    (connections : List (String × ConnRec)) (nodeName k t0 : String)
    (rest : List String) (v : Value)
    (hnotconn : isConnectionClassName t0 = false)
    (hnotvt : valueTypeNames.contains t0 = false) :
    ∃ e, _convert_node_literal_input_types connections nodeName [(k, ⟨t0 :: rest⟩)]
        [(k, ⟨v, .literal⟩)] = .error e ∧
      e.kind = .valueTypeUnresolved := by
  have hne : ¬ (t0 = "int") := by
    intro h
    subst h
    exact absurd hnotvt (by decide)
  refine ⟨⟨.valueTypeUnresolved,
    "Unresolved input type " ++ ("'" ++ (t0 ++ ("', input id is " ++ (nodeName ++ ("." ++ (k ++ "."))))))⟩,
    ?_, rfl⟩
  simp at hnotvt
  simp [_convert_node_literal_input_types, coerceLiteralValue, findEntry, hnotconn, hne, hnotvt]

/-- Witness for C9: the declared type `A_good_type` of
`test_convert_node_literal_input_types_with_invalid_case` (case 4) is
unresolved. -/
theorem C9_unresolved_declared_type_witness :
    ∃ e, _convert_node_literal_input_types [] "mock" [("int_input", ⟨["A_good_type"]⟩)]
        [("int_input", ⟨.str "invalid", .literal⟩)] = .error e ∧
      e.kind = .valueTypeUnresolved :=
  C9_unresolved_declared_type [] "mock" "int_input" "A_good_type" [] (.str "invalid") rfl rfl

/-- `findConnInput` skips every input that does not declare a
connection-compatible type. -/
theorem findConnInput_skip (nodeName : String) (nodeConn : Option String)
    (toolName : String) (conn : ConnObj)
    (pre restInputs : List (String × InputDefinition))
    (hpre : ∀ p ∈ pre, isConnCapable p.2 = false) :
    findConnInput nodeName nodeConn toolName conn (pre ++ restInputs)
      = findConnInput nodeName nodeConn toolName conn restInputs := by
  induction pre with
  | nil => rfl
  | cons p pre' ih =>
    have hp := hpre p (List.mem_cons_self p pre')
    rw [List.cons_append]
    rw [show findConnInput nodeName nodeConn toolName conn ((p.1, p.2) :: (pre' ++ restInputs))
        = findConnInput nodeName nodeConn toolName conn (pre' ++ restInputs) by
      simp [findConnInput, hp]]
    exact ih (fun q hq => hpre q (List.mem_cons_of_mem p hq))

/-- C4: For LLM-category tools, resolving the node-level connection reference
synthesizes a keyword input whose name is the first input key in the tool
schema declaring a connection-compatible type, bound to an instance of the
stored connection's type; if the referenced connection name is absent from
the table it fails with `ConnectionNotFound`, and if no declared input can
accept a connection (or the stored connection's type matches no acceptable
type) it fails with `InvalidConnectionType`. -/
theorem C4_llm_connection_to_inputs :
    (∀ (connections : List (String × ConnRec)) (node : Node) (tool : Tool),
      node.connection = none →
      ∃ e, _resolve_llm_connection_to_inputs connections node tool = .error e ∧
        e.kind = .connectionNotFound) ∧
    (∀ (connections : List (String × ConnRec)) (node : Node) (tool : Tool) (cname : String),
      node.connection = some cname → findEntry cname connections = none →
      ∃ e, _resolve_llm_connection_to_inputs connections node tool = .error e ∧
        e.kind = .connectionNotFound) ∧
    (∀ (connections : List (String × ConnRec)) (node : Node) (tool : Tool)
       (cname : String) (stored : ConnRec),
      node.connection = some cname → findEntry cname connections = some stored →
      (∀ p ∈ tool.inputs, isConnCapable p.2 = false) →
      ∃ e, _resolve_llm_connection_to_inputs connections node tool = .error e ∧
        e.kind = .invalidConnectionType) ∧
    (∀ (connections : List (String × ConnRec)) (node : Node) (toolName toolType : String)
       (pre : List (String × InputDefinition)) (k : String) (idef : InputDefinition)
       (restI : List (String × InputDefinition)) (cname : String) (stored : ConnRec),
      node.connection = some cname → findEntry cname connections = some stored →
      (∀ p ∈ pre, isConnCapable p.2 = false) →
      isConnCapable idef = true →
      idef.type.contains stored.type = true →
      _resolve_llm_connection_to_inputs connections node
        ⟨toolName, toolType, pre ++ (k, idef) :: restI⟩
        = .ok (k, ⟨stored.type, stored.value⟩)) ∧
    (∀ (connections : List (String × ConnRec)) (node : Node) (toolName toolType : String)
       (pre : List (String × InputDefinition)) (k : String) (idef : InputDefinition)
       (restI : List (String × InputDefinition)) (cname : String) (stored : ConnRec),
      node.connection = some cname → findEntry cname connections = some stored →
      (∀ p ∈ pre, isConnCapable p.2 = false) →
      isConnCapable idef = true →
      idef.type.contains stored.type = false →
      ∃ e, _resolve_llm_connection_to_inputs connections node
        ⟨toolName, toolType, pre ++ (k, idef) :: restI⟩ = .error e ∧
        e.kind = .invalidConnectionType) := by
  refine ⟨?_, ?_, ?_, ?_, ?_⟩
  · intro connections node tool hc
    exact ⟨⟨.connectionNotFound, "Connection of node '" ++ (node.name ++ "' is not found.")⟩,
      by simp [_resolve_llm_connection_to_inputs, _get_node_connection, hc], rfl⟩
  · intro connections node tool cname hc hfind
    exact ⟨⟨.connectionNotFound, "Connection '" ++ (cname ++ "' is not found.")⟩,
      by simp [_resolve_llm_connection_to_inputs, _get_node_connection, hc, hfind], rfl⟩
  · intro connections node tool cname stored hc hfind hnone
    refine ⟨⟨.invalidConnectionType,
      "Connection type can not be resolved for tool '" ++ (tool.name ++ "'.")⟩, ?_, rfl⟩
    have h0 : _resolve_llm_connection_to_inputs connections node tool
        = findConnInput node.name node.connection tool.name ⟨stored.type, stored.value⟩ tool.inputs := by
      simp [_resolve_llm_connection_to_inputs, _get_node_connection, hc, hfind]
    rw [h0]
    have h1 := findConnInput_skip node.name node.connection tool.name
      ⟨stored.type, stored.value⟩ tool.inputs [] hnone
    rw [List.append_nil] at h1
    rw [h1]
    rfl
  · intro connections node toolName toolType pre k idef restI cname stored hc hfind hpre hcap hok
    have h0 : _resolve_llm_connection_to_inputs connections node
        ⟨toolName, toolType, pre ++ (k, idef) :: restI⟩
        = findConnInput node.name node.connection toolName ⟨stored.type, stored.value⟩
            (pre ++ (k, idef) :: restI) := by
      simp [_resolve_llm_connection_to_inputs, _get_node_connection, hc, hfind]
    rw [h0, findConnInput_skip node.name node.connection toolName _ pre _ hpre]
    simp at hok
    simp [findConnInput, hcap, hok]
  · intro connections node toolName toolType pre k idef restI cname stored hc hfind hpre hcap hmiss
    refine ⟨⟨.invalidConnectionType,
      "Invalid connection '" ++ ((node.connection.getD "") ++ ("' type '" ++ (stored.type ++
        ("' for node '" ++ (node.name ++ ("', valid types " ++ (quotedList idef.type ++ ".")))))))⟩,
      ?_, rfl⟩
    have h0 : _resolve_llm_connection_to_inputs connections node
        ⟨toolName, toolType, pre ++ (k, idef) :: restI⟩
        = findConnInput node.name node.connection toolName ⟨stored.type, stored.value⟩
            (pre ++ (k, idef) :: restI) := by
      simp [_resolve_llm_connection_to_inputs, _get_node_connection, hc, hfind]
    rw [h0, findConnInput_skip node.name node.connection toolName _ pre _ hpre]
    simp at hmiss
    simp [findConnInput, hcap, hmiss]

/-- Witness for C4: the five cases of `test_resolve_llm_connection_to_inputs`
— unspecified node connection, missing name, a tool with no
connection-capable input, a type mismatch, and the normal case binding the
stored `AzureOpenAIConnection` to input key `conn`. -/
theorem C4_llm_connection_to_inputs_witness :
    (∃ e, _resolve_llm_connection_to_inputs
        [("conn_name", ⟨"AzureOpenAIConnection", [("api_key", "mock"), ("api_base", "mock")]⟩)]
        ⟨"mock", .python, none, [], none, none⟩
        ⟨"mock", "python", [("conn", ⟨["CustomConnection"]⟩)]⟩ = .error e ∧
      e.kind = .connectionNotFound) ∧
    (∃ e, _resolve_llm_connection_to_inputs []
        ⟨"mock", .python, none, [], some "conn_name1", none⟩
        ⟨"mock", "python", [("conn", ⟨["CustomConnection"]⟩)]⟩ = .error e ∧
      e.kind = .connectionNotFound) ∧
    (∃ e, _resolve_llm_connection_to_inputs
        [("conn_name", ⟨"AzureOpenAIConnection", [("api_key", "mock"), ("api_base", "mock")]⟩)]
        ⟨"mock", .python, none, [], some "conn_name", none⟩
        ⟨"mock", "python", [("conn", ⟨["int"]⟩)]⟩ = .error e ∧
      e.kind = .invalidConnectionType) ∧
    (∃ e, _resolve_llm_connection_to_inputs
        [("conn_name", ⟨"AzureOpenAIConnection", [("api_key", "mock"), ("api_base", "mock")]⟩)]
        ⟨"mock", .python, none, [], some "conn_name", none⟩
        ⟨"mock", "python", [] ++ ("conn", ⟨["OpenAIConnection"]⟩) :: []⟩ = .error e ∧
      e.kind = .invalidConnectionType) ∧
    _resolve_llm_connection_to_inputs
        [("conn_name", ⟨"AzureOpenAIConnection", [("api_key", "mock"), ("api_base", "mock")]⟩)]
        ⟨"mock", .python, none, [], some "conn_name", none⟩
        ⟨"mock", "python", [] ++ ("conn", ⟨["OpenAIConnection", "AzureOpenAIConnection"]⟩) :: []⟩
      = .ok ("conn", ⟨"AzureOpenAIConnection", [("api_key", "mock"), ("api_base", "mock")]⟩) :=
  ⟨C4_llm_connection_to_inputs.1
    [("conn_name", ⟨"AzureOpenAIConnection", [("api_key", "mock"), ("api_base", "mock")]⟩)]
    ⟨"mock", .python, none, [], none, none⟩
    ⟨"mock", "python", [("conn", ⟨["CustomConnection"]⟩)]⟩ rfl,
   C4_llm_connection_to_inputs.2.1 []
    ⟨"mock", .python, none, [], some "conn_name1", none⟩
    ⟨"mock", "python", [("conn", ⟨["CustomConnection"]⟩)]⟩ "conn_name1" rfl rfl,
   C4_llm_connection_to_inputs.2.2.1
    [("conn_name", ⟨"AzureOpenAIConnection", [("api_key", "mock"), ("api_base", "mock")]⟩)]
    ⟨"mock", .python, none, [], some "conn_name", none⟩
    ⟨"mock", "python", [("conn", ⟨["int"]⟩)]⟩ "conn_name"
    ⟨"AzureOpenAIConnection", [("api_key", "mock"), ("api_base", "mock")]⟩ rfl rfl (by decide),
   C4_llm_connection_to_inputs.2.2.2.2
    [("conn_name", ⟨"AzureOpenAIConnection", [("api_key", "mock"), ("api_base", "mock")]⟩)]
    ⟨"mock", .python, none, [], some "conn_name", none⟩ "mock" "python" [] "conn"
    ⟨["OpenAIConnection"]⟩ [] "conn_name"
    ⟨"AzureOpenAIConnection", [("api_key", "mock"), ("api_base", "mock")]⟩ rfl rfl
    (by decide) rfl rfl,
   C4_llm_connection_to_inputs.2.2.2.1
    [("conn_name", ⟨"AzureOpenAIConnection", [("api_key", "mock"), ("api_base", "mock")]⟩)]
    ⟨"mock", .python, none, [], some "conn_name", none⟩ "mock" "python" [] "conn"
    ⟨["OpenAIConnection", "AzureOpenAIConnection"]⟩ [] "conn_name"
    ⟨"AzureOpenAIConnection", [("api_key", "mock"), ("api_base", "mock")]⟩ rfl rfl
    (by decide) rfl rfl⟩

/-- C2 counterexample: with acceptable types `["CustomConnection",
"MyFirstCSTConnection"]` and a stored value containing every required field
of the custom strong-typed subtype `MyFirstCSTConnection`, conversion still
yields the generic base type `CustomConnection` — the most specific
fully-satisfied subtype does NOT win over the generic base type (the
expectation pinned by `test_convert_to_custom_strong_type_connection_value`,
parameter set 2). -/
theorem C2_most_specific_subtype_counterexample :
    _convert_to_custom_strong_type_connection_value
      [("conn_name", ⟨"CustomConnection", [("api_key", "mock"), ("api_base", "mock")]⟩)]
      "mock" "conn" (.str "conn_name") ["CustomConnection", "MyFirstCSTConnection"]
      = .ok ⟨"CustomConnection", [("api_key", "mock"), ("api_base", "mock")]⟩ ∧
    (∀ f ∈ customTypeRequiredFields "MyFirstCSTConnection",
      f ∈ ([("api_key", "mock"), ("api_base", "mock")] : List (String × String)).map Prod.fst) ∧
    ("CustomConnection" : String) ≠ "MyFirstCSTConnection" :=
  ⟨rfl, by decide, by decide⟩

/-- C2 (amended): when a connection-typed input's acceptable type list holds
custom strong-typed connection types, conversion picks the FIRST acceptable
type in declared order, regardless of specificity: the stored connection is
converted to an instance of `conn_types[0]` carrying the stored field
mapping (so among several custom subtypes the first in declared order wins,
and a generic base type declared first wins over any subtype that follows);
a name absent from the table fails with `ConnectionNotFound`. -/
theorem C2_first_declared_type_wins
    (connections : List (String × ConnRec)) (nodeName k connName t0 : String)
    (rest : List String) :
    (∀ stored : ConnRec, findEntry connName connections = some stored →
      _convert_to_custom_strong_type_connection_value connections nodeName k
        (.str connName) (t0 :: rest) = .ok ⟨t0, stored.value⟩) ∧
    (findEntry connName connections = none →
      ∃ e, _convert_to_custom_strong_type_connection_value connections nodeName k
        (.str connName) (t0 :: rest) = .error e ∧ e.kind = .connectionNotFound) := by
  constructor
  · intro stored hfind
    simp [_convert_to_custom_strong_type_connection_value, hfind]
  · intro hfind
    exact ⟨⟨.connectionNotFound,
      "Connection " ++ (connName ++ (" not found for node '" ++ (nodeName ++ ("' input '" ++ (k ++ "'.")))))⟩,
      by simp [_convert_to_custom_strong_type_connection_value, hfind], rfl⟩

/-- Witness for the amended C2: with acceptable types
`["MyFirstCSTConnection", "MySecondCSTConnection"]` the first declared
subtype wins and carries the stored fields (parameter set 4 of
`test_convert_to_custom_strong_type_connection_value`); an empty table gives
`ConnectionNotFound`. -/
theorem C2_first_declared_type_wins_witness :
    _convert_to_custom_strong_type_connection_value
      [("conn_name", ⟨"CustomConnection", [("api_key", "mock"), ("api_base", "mock")]⟩)]
      "mock" "conn" (.str "conn_name") ["MyFirstCSTConnection", "MySecondCSTConnection"]
      = .ok ⟨"MyFirstCSTConnection", [("api_key", "mock"), ("api_base", "mock")]⟩ ∧
    (∃ e, _convert_to_custom_strong_type_connection_value [] "mock" "conn"
      (.str "conn_name") ["MyFirstCSTConnection", "MySecondCSTConnection"] = .error e ∧
      e.kind = .connectionNotFound) :=
  ⟨(C2_first_declared_type_wins
      [("conn_name", ⟨"CustomConnection", [("api_key", "mock"), ("api_base", "mock")]⟩)]
      "mock" "conn" "conn_name" "MyFirstCSTConnection" ["MySecondCSTConnection"]).1
      ⟨"CustomConnection", [("api_key", "mock"), ("api_base", "mock")]⟩ rfl,
   (C2_first_declared_type_wins [] "mock" "conn" "conn_name" "MyFirstCSTConnection"
      ["MySecondCSTConnection"]).2 rfl⟩

/-- Property names exported for a function tool are the declared parameter
names filtered by non-membership in the predefined-input names. -/
theorem map_fst_filteredProps (params : List FuncParam) (predefNames : List String) :
    (filteredProps params predefNames).map Prod.fst
      = (params.map (fun p => p.name)).filter (fun n => !(predefNames.contains n)) := by
  induction params with
  | nil => rfl
  | cons p rest ih =>
    by_cases h : p.name ∈ predefNames
    · simp [filteredProps, List.filter_cons, h] at ih ⊢
      exact ih
    · simp [filteredProps, List.filter_cons, h] at ih ⊢
      exact ih

/-- `findTool` skips a prefix of catalog records none of which carries the
requested name. -/
theorem findTool_load_tools_skip (builtins : List String) (tail : List AssistantToolDef)
    (name : String) (hb : ∀ b ∈ builtins, b ≠ name) :
    findTool name (AssistantToolInvoker.load_tools (builtins.map .builtin ++ tail))
      = findTool name (AssistantToolInvoker.load_tools tail) := by
  induction builtins with
  | nil => rfl
  | cons b rest ih =>
    have hb0 : b ≠ name := hb b (List.mem_cons_self b rest)
    simp only [List.map_cons, List.cons_append, AssistantToolInvoker.load_tools, findTool]
    rw [if_neg hb0]
    exact ih (fun q hq => hb q (List.mem_cons_of_mem _ hq))

/-- `findTool` misses a catalog none of whose records carries the requested
name. -/
theorem findTool_load_tools_none (defs : List AssistantToolDef) (name : String)
    (h : ∀ d ∈ defs, toolNameOf d ≠ name) :
    findTool name (AssistantToolInvoker.load_tools defs) = none := by
  induction defs with
  | nil => rfl
  | cons d rest ih =>
    have hd := h d (List.mem_cons_self d rest)
    cases d with
    | builtin t =>
      simp only [toolNameOf] at hd
      simp only [AssistantToolInvoker.load_tools, List.map_cons, findTool]
      rw [if_neg hd]
      exact ih (fun q hq => h q (List.mem_cons_of_mem _ hq))
    | function lf predefined =>
      simp only [toolNameOf] at hd
      simp only [AssistantToolInvoker.load_tools, List.map_cons, findTool]
      rw [if_neg hd]
      exact ih (fun q hq => h q (List.mem_cons_of_mem _ hq))

/-- C8: For a function tool cataloged with `predefined_inputs`, the Assistant
Tool Invoker's exported descriptor excludes every predefined input name from
both the parameter schema's properties and its required list while
preserving the original declaration order, and passes built-in tools through
with only a type tag; `invoke_tool` merges the predefined inputs with the
caller's kwargs (predefined first, so they are not overridable) and calling
with only the remaining inputs returns the underlying function's result,
while a name absent from the catalog fails with a lookup error. -/
theorem C8_assistant_tool_invoker :
    (∀ defs, AssistantToolInvoker.to_openai_tools (AssistantToolInvoker.load_tools defs)
      = defs.map toolDescriptor) ∧
    (∀ t, toolDescriptor (.builtin t) = .obj [("type", .str t)]) ∧
    (∀ (lf : LoadedFunc) (predefined : List (String × JVal)),
      (filteredProps lf.params (predefined.map Prod.fst)).map Prod.fst
        = (lf.params.map (fun p => p.name)).filter
            (fun n => !((predefined.map Prod.fst).contains n)) ∧
      (∀ n ∈ predefined.map Prod.fst,
        n ∉ (filteredProps lf.params (predefined.map Prod.fst)).map Prod.fst) ∧
      (∀ n ∈ predefined.map Prod.fst,
        n ∉ filteredRequired lf.required (predefined.map Prod.fst)) ∧
      (filteredRequired lf.required (predefined.map Prod.fst)).Sublist lf.required ∧
      ((filteredProps lf.params (predefined.map Prod.fst)).map Prod.fst).Sublist
        (lf.params.map (fun p => p.name))) ∧
    (∀ (builtins : List String) (lf : LoadedFunc) (predefined kwargs : List (String × JVal)),
      (∀ b ∈ builtins, b ≠ lf.name) →
      AssistantToolInvoker.invoke_tool
        (AssistantToolInvoker.load_tools (builtins.map .builtin ++ [.function lf predefined]))
        lf.name kwargs = .ok (lf.fn (predefined ++ kwargs))) ∧
    (∀ (defs : List AssistantToolDef) (name : String) (kwargs : List (String × JVal)),
      (∀ d ∈ defs, toolNameOf d ≠ name) →
      ∃ msg, AssistantToolInvoker.invoke_tool (AssistantToolInvoker.load_tools defs) name kwargs
        = .error msg) := by
  refine ⟨?_, fun t => rfl, ?_, ?_, ?_⟩
  · intro defs
    induction defs with
    | nil => rfl
    | cons d rest ih =>
      cases d with
      | builtin t =>
        simp only [AssistantToolInvoker.load_tools, AssistantToolInvoker.to_openai_tools,
          List.map_cons] at ih ⊢
        exact congrArg _ ih
      | function lf predefined =>
        simp only [AssistantToolInvoker.load_tools, AssistantToolInvoker.to_openai_tools,
          List.map_cons] at ih ⊢
        exact congrArg _ ih
  · intro lf predefined
    refine ⟨map_fst_filteredProps lf.params (predefined.map Prod.fst), ?_, ?_, ?_, ?_⟩
    · intro n hn hmem
      rw [map_fst_filteredProps] at hmem
      rcases List.mem_filter.mp hmem with ⟨_, hpred⟩
      have hc : (predefined.map Prod.fst).contains n = true := by
        simpa [List.contains] using hn
      rw [hc] at hpred
      exact absurd hpred (by decide)
    · intro n hn hmem
      rcases List.mem_filter.mp hmem with ⟨_, hpred⟩
      have hc : (predefined.map Prod.fst).contains n = true := by
        simpa [List.contains] using hn
      rw [hc] at hpred
      exact absurd hpred (by decide)
    · exact List.filter_sublist lf.required
    · rw [map_fst_filteredProps]
      exact List.filter_sublist (lf.params.map (fun p => p.name))
  · intro builtins lf predefined kwargs hb
    unfold AssistantToolInvoker.invoke_tool
    rw [findTool_load_tools_skip builtins [.function lf predefined] lf.name hb]
    simp [AssistantToolInvoker.load_tools, findTool]
  · intro defs name kwargs hmiss
    refine ⟨"KeyError: '" ++ (name ++ "'"), ?_⟩
    unfold AssistantToolInvoker.invoke_tool
    rw [findTool_load_tools_none defs name hmiss]

/-- Witness for C8: the catalog of `test_load_tools` — two built-ins and
`sample_tool` with `predefined_inputs = {"connection": "conn_name"}`.  The
exported descriptors carry only a type tag for the built-ins and drop
`connection` from the function schema; invoking with the remaining inputs
returns the function's result `(1, "test")`; an uncataloged name fails with
a lookup error. -/
theorem C8_assistant_tool_invoker_witness :
    AssistantToolInvoker.to_openai_tools (AssistantToolInvoker.load_tools
      [.builtin "code_interpreter", .builtin "retrieval",
       .function sample_tool [("connection", .str "conn_name")]])
      = [.obj [("type", .str "code_interpreter")],
         .obj [("type", .str "retrieval")],
         .obj [("type", .str "function"),
               ("function", .obj
                 [("name", .str "sample_tool"),
                  ("description", .str "This is a sample tool."),
                  ("parameters", .obj
                    [("type", .str "object"),
                     ("properties", .obj
                       [("input_int", .obj [("description", .str "This is a sample input int."),
                                            ("type", .str "number")]),
                        ("input_str", .obj [("description", .str "This is a sample input str."),
                                            ("type", .str "string")])]),
                     ("required", .arr [.str "input_int", .str "input_str"])])])]] ∧
    AssistantToolInvoker.invoke_tool (AssistantToolInvoker.load_tools
      [.builtin "code_interpreter", .builtin "retrieval",
       .function sample_tool [("connection", .str "conn_name")]])
      "sample_tool" [("input_int", .num 1), ("input_str", .str "test")]
      = .ok (.arr [.num 1, .str "test"]) ∧
    (∃ msg, AssistantToolInvoker.invoke_tool (AssistantToolInvoker.load_tools
      [.builtin "code_interpreter", .builtin "retrieval",
       .function sample_tool [("connection", .str "conn_name")]])
      "invalid_tool" [] = .error msg) :=
  ⟨C8_assistant_tool_invoker.1
    [.builtin "code_interpreter", .builtin "retrieval",
     .function sample_tool [("connection", .str "conn_name")]],
   C8_assistant_tool_invoker.2.2.2.1 ["code_interpreter", "retrieval"] sample_tool
     [("connection", .str "conn_name")] [("input_int", .num 1), ("input_str", .str "test")]
     (by decide),
   C8_assistant_tool_invoker.2.2.2.2
    [.builtin "code_interpreter", .builtin "retrieval",
     .function sample_tool [("connection", .str "conn_name")]] "invalid_tool" []
    (by decide)⟩

/-- `findEntry` skips a prefix none of whose keys matches. -/
theorem findEntry_append_none {α : Type} (l rest : List (String × α)) (k : String)
    (h : ∀ kv ∈ l, kv.1 ≠ k) :
    findEntry k (l ++ rest) = findEntry k rest := by
  induction l with
  | nil => rfl
  | cons kv l' ih =>
    rw [List.cons_append, show findEntry k ((kv.1, kv.2) :: (l' ++ rest)) = findEntry k (l' ++ rest) by
      simp [findEntry, h kv (List.mem_cons_self kv l')]]
    exact ih (fun q hq => h q (List.mem_cons_of_mem _ hq))

/-- After a `dict.update` with `{k: c}`, looking up `k` yields `c`. -/
theorem findEntry_dictUpdate {α : Type} (base : List (String × α)) (k : String) (c : α) :
    findEntry k (dictUpdate base [(k, c)]) = some c := by
  unfold dictUpdate
  rw [findEntry_append_none]
  · simp [findEntry]
  · intro kv hkv
    rcases List.mem_filter.mp hkv with ⟨_, hpred⟩
    intro heq
    rw [heq] at hpred
    simp at hpred

/-- `dict.update` with no new entries keeps the table. -/
theorem dictUpdate_nil {α : Type} (base : List (String × α)) :
    dictUpdate base [] = base := by
  unfold dictUpdate
  simp

/-- C10: For every connection name referenced by the flow, the AzureML
extension's override lookup first normalizes the name (replacing spaces with
underscores) before consulting the environment; an override value that
parses as JSON is converted to a connection record and merged into the
extension's stored connections mapping (a data override), an override value
that is not valid JSON is returned as a name override without raising, and a
JSON value that fails conversion to a connection raises
`InvalidConnectionData` for that connection name. -/
theorem C10_get_override_connections
    (env : List (String × String)) (jsonParse : String → Option JVal)
    (convertToConnDict : String → JVal → Option ConnRec)
    (stored : List (String × ConnRec)) (name : String) :
    (findEntry (normalize_connection_name name) env = none →
      get_override_connections env jsonParse convertToConnDict stored [name]
        = .ok (stored, [])) ∧
    (∀ v, findEntry (normalize_connection_name name) env = some v →
      jsonParse v = none →
      get_override_connections env jsonParse convertToConnDict stored [name]
        = .ok (stored, [(name, v)])) ∧
    (∀ v j c, findEntry (normalize_connection_name name) env = some v →
      jsonParse v = some j → convertToConnDict name j = some c →
      get_override_connections env jsonParse convertToConnDict stored [name]
        = .ok (dictUpdate stored [(name, c)], []) ∧
      findEntry name (dictUpdate stored [(name, c)]) = some c) ∧
    (∀ v j, findEntry (normalize_connection_name name) env = some v →
      jsonParse v = some j → convertToConnDict name j = none →
      get_override_connections env jsonParse convertToConnDict stored [name]
        = .error ⟨name⟩) := by
  refine ⟨?_, ?_, ?_, ?_⟩
  · intro henv
    simp [get_override_connections, getOverrideConnectionsAux, henv, dictUpdate_nil]
  · intro v henv hjson
    simp [get_override_connections, getOverrideConnectionsAux, Except.map, henv, hjson,
      dictUpdate_nil]
  · intro v j c henv hjson hconv
    refine ⟨?_, findEntry_dictUpdate stored name c⟩
    simp [get_override_connections, getOverrideConnectionsAux, Except.map, henv, hjson, hconv]
  · intro v j henv hjson hconv
    simp [get_override_connections, getOverrideConnectionsAux, henv, hjson, hconv]

/-- Witness for C10: a three-entry environment exercising all four cases —
a name with no override, a space-bearing name (normalized before lookup)
whose value is not JSON (name override, no error), a JSON value converted
and merged, and a JSON value whose conversion fails
(`InvalidConnectionData`). -/
theorem C10_get_override_connections_witness :
    get_override_connections
      [("my_conn", "not json"), ("good_conn", "{}"), ("bad_conn", "{}")]
      (fun s => if s = "{}" then some (.obj []) else none)
      (fun n _ => if n = "bad conn" then none else some ⟨"CustomConnection", []⟩)
      [("old", ⟨"AzureOpenAIConnection", []⟩)] ["other conn"]
      = .ok ([("old", ⟨"AzureOpenAIConnection", []⟩)], []) ∧
    get_override_connections
      [("my_conn", "not json"), ("good_conn", "{}"), ("bad_conn", "{}")]
      (fun s => if s = "{}" then some (.obj []) else none)
      (fun n _ => if n = "bad conn" then none else some ⟨"CustomConnection", []⟩)
      [("old", ⟨"AzureOpenAIConnection", []⟩)] ["my conn"]
      = .ok ([("old", ⟨"AzureOpenAIConnection", []⟩)], [("my conn", "not json")]) ∧
    (get_override_connections
      [("my_conn", "not json"), ("good_conn", "{}"), ("bad_conn", "{}")]
      (fun s => if s = "{}" then some (.obj []) else none)
      (fun n _ => if n = "bad conn" then none else some ⟨"CustomConnection", []⟩)
      [("old", ⟨"AzureOpenAIConnection", []⟩)] ["good conn"]
      = .ok (dictUpdate ([("old", ⟨"AzureOpenAIConnection", []⟩)] : List (String × ConnRec))
          [("good conn", ⟨"CustomConnection", []⟩)], []) ∧
     findEntry "good conn"
        (dictUpdate ([("old", ⟨"AzureOpenAIConnection", []⟩)] : List (String × ConnRec))
          [("good conn", ⟨"CustomConnection", []⟩)]) = some ⟨"CustomConnection", []⟩) ∧
    get_override_connections
      [("my_conn", "not json"), ("good_conn", "{}"), ("bad_conn", "{}")]
      (fun s => if s = "{}" then some (.obj []) else none)
      (fun n _ => if n = "bad conn" then none else some ⟨"CustomConnection", []⟩)
      [("old", ⟨"AzureOpenAIConnection", []⟩)] ["bad conn"]
      = .error ⟨"bad conn"⟩ :=
  ⟨(C10_get_override_connections
      [("my_conn", "not json"), ("good_conn", "{}"), ("bad_conn", "{}")]
      (fun s => if s = "{}" then some (.obj []) else none)
      (fun n _ => if n = "bad conn" then none else some ⟨"CustomConnection", []⟩)
      [("old", ⟨"AzureOpenAIConnection", []⟩)] "other conn").1 rfl,
   (C10_get_override_connections
      [("my_conn", "not json"), ("good_conn", "{}"), ("bad_conn", "{}")]
      (fun s => if s = "{}" then some (.obj []) else none)
      (fun n _ => if n = "bad conn" then none else some ⟨"CustomConnection", []⟩)
      [("old", ⟨"AzureOpenAIConnection", []⟩)] "my conn").2.1 "not json" rfl rfl,
   (C10_get_override_connections
      [("my_conn", "not json"), ("good_conn", "{}"), ("bad_conn", "{}")]
      (fun s => if s = "{}" then some (.obj []) else none)
      (fun n _ => if n = "bad conn" then none else some ⟨"CustomConnection", []⟩)
      [("old", ⟨"AzureOpenAIConnection", []⟩)] "good conn").2.2.1 "{}" (.obj [])
      ⟨"CustomConnection", []⟩ rfl rfl rfl,
   (C10_get_override_connections
      [("my_conn", "not json"), ("good_conn", "{}"), ("bad_conn", "{}")]
      (fun s => if s = "{}" then some (.obj []) else none)
      (fun n _ => if n = "bad conn" then none else some ⟨"CustomConnection", []⟩)
      [("old", ⟨"AzureOpenAIConnection", []⟩)] "bad conn").2.2.2 "{}" (.obj []) rfl rfl rfl⟩
